import Mathlib

/-!
Verification of the faster-lio-with-fail-state LIO driver (`src/laser_mapping.cc`)
against its natural-language specification.

The development shallowly embeds the decision logic of `LaserMapping` over
exact rational arithmetic: machine floating point is idealised as `ℚ`
(respectively `ℝ` where the source takes a square root).  All definitions are
translated from the source file; the few collaborators that live in headers
outside the provided source (the `options` constants, `common::calc_dist`,
the IKFoM filter layer) are modelled from the specification and are marked
as such in their doc comments.
-/

namespace FasterLio

/-- A 3-vector of exact rationals, modelling `Eigen::Vector3f` /
`common::V3F` (floating point idealised as `ℚ`). -/
structure V3 where
  x : ℚ
  y : ℚ
  z : ℚ
deriving DecidableEq

/-- A 4-vector of exact rationals, modelling `Eigen::Vector4f` /
`common::V4F` (used for plane coefficients `(a,b,c,d)`). -/
structure V4 where
  a : ℚ
  b : ℚ
  c : ℚ
  d : ℚ
deriving DecidableEq

instance : Add V3 := ⟨fun u v => ⟨u.x + v.x, u.y + v.y, u.z + v.z⟩⟩

instance : Sub V3 := ⟨fun u v => ⟨u.x - v.x, u.y - v.y, u.z - v.z⟩⟩

/-- Dot product of two 3-vectors. -/
def V3.dot (u v : V3) : ℚ :=
  u.x * v.x + u.y * v.y + u.z * v.z

/-- Squared Euclidean norm, modelling `Eigen`'s `squaredNorm()`. -/
def normSq (v : V3) : ℚ :=
  v.x * v.x + v.y * v.y + v.z * v.z

/-- A 3×3 rational matrix stored by rows, modelling `common::M3F`. -/
structure M3 where
  r0 : V3
  r1 : V3
  r2 : V3
deriving DecidableEq

/-- Matrix-vector product. -/
def M3.mulVec (m : M3) (v : V3) : V3 :=
  ⟨m.r0.dot v, m.r1.dot v, m.r2.dot v⟩

/-- Matrix transpose. -/
def M3.transpose (m : M3) : M3 :=
  ⟨⟨m.r0.x, m.r1.x, m.r2.x⟩, ⟨m.r0.y, m.r1.y, m.r2.y⟩, ⟨m.r0.z, m.r1.z, m.r2.z⟩⟩

/-- Matrix-matrix product. -/
def M3.mul (m n : M3) : M3 :=
  let t := n.transpose
  ⟨⟨m.r0.dot t.r0, m.r0.dot t.r1, m.r0.dot t.r2⟩,
   ⟨m.r1.dot t.r0, m.r1.dot t.r1, m.r1.dot t.r2⟩,
   ⟨m.r2.dot t.r0, m.r2.dot t.r1, m.r2.dot t.r2⟩⟩

/-- The identity matrix. -/
def M3.id : M3 :=
  ⟨⟨1, 0, 0⟩, ⟨0, 1, 0⟩, ⟨0, 0, 1⟩⟩

/-- Skew-symmetric cross-product matrix, modelling the source macro
`SKEW_SYM_MATRIX(v)` used in `ObsModel`. -/
def skew (v : V3) : M3 :=
  ⟨⟨0, -v.z, v.y⟩, ⟨v.z, 0, -v.x⟩, ⟨-v.y, v.x, 0⟩⟩

/-! ## Control services and intake buffers
(`startLIO`, `stopLIO`, `Reset`, `StandardPCLCallBack`, `SyncPackages`) -/

/-- The slice of the `LaserMapping` member state touched by the
`start_lidar_odom` / `stop_lidar_odom` services: the `lidar_odom_` flag
(`true` = Running/Bootstrapping, `false` = Idle) and the accumulated
trajectory `path_.poses` (each pose a position and a quaternion). -/
structure DriverState where
  lidar_odom : Bool
  path_poses : List (V3 × V4)
deriving DecidableEq

/-- `LaserMapping::startLIO` (the `start_lidar_odom` service handler):
clears `path_.poses` and sets `lidar_odom_ = true`. -/
def startLio (st : DriverState) : DriverState :=
  { st with path_poses := [], lidar_odom := true }

/-- `LaserMapping::stopLIO` (the `stop_lidar_odom` service handler):
sets `lidar_odom_ = false` and nothing else. -/
def stopLio (st : DriverState) : DriverState :=
  { st with lidar_odom := false }

/-- The LiDAR intake buffers of `LaserMapping`: the scan buffer
`lidar_buffer_` (each scan a point cloud), the parallel bag-time buffer
`time_buffer_`, and `last_timestamp_lidar_`. -/
structure IntakeState where
  lidar_buffer : List (List V3)
  time_buffer : List ℚ
  last_timestamp_lidar : ℚ
deriving DecidableEq

/-- `LaserMapping::StandardPCLCallBack` restricted to its buffer effect:
on a timestamp regression (`stamp < last_timestamp_lidar_`) it clears
`lidar_buffer_` (and only `lidar_buffer_`); it then appends the
preprocessed cloud to `lidar_buffer_`, appends the stamp to
`time_buffer_`, and records the stamp as `last_timestamp_lidar_`. -/
def standardPCLCallBack (stamp : ℚ) (cloud : List V3) (st : IntakeState) : IntakeState :=
  let lb := if stamp < st.last_timestamp_lidar then [] else st.lidar_buffer
  { lidar_buffer := lb ++ [cloud],
    time_buffer := st.time_buffer ++ [stamp],
    last_timestamp_lidar := stamp }

/-- `LaserMapping::Reset` restricted to the intake buffers: clears both
`lidar_buffer_` and `time_buffer_` (the source clears `time_buffer_`
twice) and leaves `last_timestamp_lidar_` untouched. -/
def resetBuffers (st : IntakeState) : IntakeState :=
  { st with lidar_buffer := [], time_buffer := [] }

/-- The IMU-draining loop of `LaserMapping::SyncPackages`, on the list of
buffered IMU timestamps.  The C++ loop is
`while (!imu_buffer_.empty() && imu_time < lidar_end_time_) {
   imu_time = front; if (imu_time > lidar_end_time_) break;
   push front; pop; }`
where `prev` is the value of `imu_time` at the loop head.  Returns
(the drained bundle, the remaining buffer). -/
def drainLoop (te : ℚ) (prev : ℚ) : List ℚ → List ℚ × List ℚ
  | [] => ([], [])
  | cur :: rest =>
      if prev < te then
        if te < cur then ([], cur :: rest)
        else
          let res := drainLoop te cur rest
          (cur :: res.1, res.2)
      else ([], cur :: rest)

/-- The IMU drain of `SyncPackages`: `imu_time` is initialised to the
front timestamp of the (nonempty) IMU buffer before the loop runs. -/
def drainImu (te : ℚ) (buf : List ℚ) : List ℚ × List ℚ :=
  match buf with
  | [] => ([], [])
  | x :: _ => drainLoop te x buf

/-! ## Parameter loading (`LoadParams` / `LoadParamsFromYAML`) -/

/-- The iVox neighbourhood modes (`IVoxType::NearbyType`). -/
inductive NearbyType
  | CENTER
  | NEARBY6
  | NEARBY18
  | NEARBY26
deriving DecidableEq

/-- The supported LiDAR families (`LidarType`). -/
inductive LidarType
  | AVIA
  | VELO32
  | OUST64
deriving DecidableEq

/-- The `lidar_type` dispatch of `LoadParams`/`LoadParamsFromYAML`:
`1 ↦ AVIA`, `2 ↦ VELO32`, `3 ↦ OUST64`, anything else makes the
loader return `false`. -/
def loadLidarType (v : ℤ) : Option LidarType :=
  if v = 1 then some .AVIA
  else if v = 2 then some .VELO32
  else if v = 3 then some .OUST64
  else none

/-- The `ivox_nearby_type` dispatch of `LoadParams`/`LoadParamsFromYAML`:
`0/6/18/26` select the corresponding mode, and any other value falls
back to `NEARBY18` with a warning (it does not fail). -/
def loadNearbyType (v : ℤ) : NearbyType :=
  if v = 0 then .CENTER
  else if v = 6 then .NEARBY6
  else if v = 18 then .NEARBY18
  else if v = 26 then .NEARBY26
  else .NEARBY18

/-- The enum-dispatch skeleton of `LaserMapping::LoadParams` (identical in
`LoadParamsFromYAML`): the `lidar_type` dispatch runs first and an
unknown value aborts with `false` (`none`); the `ivox_nearby_type`
dispatch never aborts.  On success the chosen pair is returned. -/
def loadParams (lidar_type ivox_nearby_type : ℤ) : Option (LidarType × NearbyType) :=
  match loadLidarType lidar_type with
  | some lt => some (lt, loadNearbyType ivox_nearby_type)
  | none => none

/-! ## Observation model (`LaserMapping::ObsModel`) -/

/-- Modelled from the spec: `options::NUM_MATCH_POINTS` (K_match, the kNN
match count of the observation model).  `options.h` is not part of the
provided source; the spec gives the default 5. -/
def NUM_MATCH_POINTS : ℕ := 5

/-- Modelled from the spec: `options::MIN_NUM_MATCH_POINTS` (K_min, the
minimum neighbour count for a correspondence).  `options.h` is not part
of the provided source; the spec gives the default 3. -/
def MIN_NUM_MATCH_POINTS : ℕ := 3

/-- The per-point mutable slots of `LaserMapping` indexed by downsampled
point: `nearest_points_[i]`, `point_selected_surf_[i]`, `plane_coef_[i]`
and `residuals_[i]`. -/
structure PointSlots where
  nearest : List V3
  selected : Bool
  coef : V4
  residual : ℚ
deriving DecidableEq

/-- The shared filter/observation data `esekfom::dyn_share_datastruct`
as used by `ObsModel`: the `converge` and `valid` flags, the Jacobian
rows `h_x` (each a 12-entry row) and the measurement vector `h`. -/
structure DynShare where
  converge : Bool
  valid : Bool
  h_x : List (List ℚ)
  h : List ℚ
deriving DecidableEq

/-- The signed point-to-plane value computed in `ObsModel`:
`plane_coef_[i].dot(temp)` with `temp = (p_world, 1)`. -/
def planeDist (coef : V4) (p_world : V3) : ℚ :=
  coef.a * p_world.x + coef.b * p_world.y + coef.c * p_world.z + coef.d

/-- The validity gate of `ObsModel` exactly as the source writes it:
`p_body.norm() > 81 * pd2 * pd2`, where `norm()` is the Euclidean norm,
i.e. the real square root of `normSq`. -/
def validCorrGate (p_body : V3) (pd2 : ℚ) : Prop :=
  ((81 * pd2 * pd2 : ℚ) : ℝ) < Real.sqrt ((normSq p_body : ℚ) : ℝ)

/-- Executable form of the validity gate used by the embedded pipeline.
Because `81 * pd2 * pd2` is nonnegative and `norm = √normSq`, the
source comparison `p_body.norm() > 81 * pd2 * pd2` holds exactly when
`(81 * pd2 * pd2)² < normSq p_body`; the equivalence with
`validCorrGate` is proved in `valid_corr_iff_gate` below. -/
def valid_corr (p_body : V3) (pd2 : ℚ) : Bool :=
  decide ((81 * pd2 * pd2) ^ 2 < normSq p_body)

/-- Modelled from the spec: the claim C1 reading of the gate, with the
squared norm on the left: accepted iff `‖p_b‖² > 81 · r_i²`. -/
def gateSpec (p_body : V3) (pd2 : ℚ) : Prop :=
  81 * pd2 * pd2 < normSq p_body

instance (p_body : V3) (pd2 : ℚ) : Decidable (gateSpec p_body pd2) := by
  unfold gateSpec
  infer_instance

/-- The correspondence-refresh stage of the per-point loop of `ObsModel`
(the `if (ekfom_data.converge)` block): query the map for up to
`NUM_MATCH_POINTS` neighbours, select the point iff at least
`MIN_NUM_MATCH_POINTS` neighbours exist and the plane fit succeeds.
The kNN query (`ivox_->GetClosestPoint`) and the plane fit
(`common::esti_plane`) live in headers outside the provided source and
are taken as oracle parameters `knn` and `estiPlane`; `estiPlane`
returns `some coef` on success and `none` on rejection (in which case
`plane_coef_[i]` is left as it was). -/
def corrPhase (knn : V3 → List V3) (estiPlane : List V3 → Option V4)
    (converge : Bool) (p_world : V3) (s : PointSlots) : PointSlots :=
  if converge then
    let near := knn p_world
    if MIN_NUM_MATCH_POINTS ≤ near.length then
      match estiPlane near with
      | some c => { s with nearest := near, selected := true, coef := c }
      | none => { s with nearest := near, selected := false }
    else { s with nearest := near, selected := false }
  else s

/-- The gate stage of the per-point loop of `ObsModel`: for a selected
point compute `pd2` and, when the validity gate passes, (re-)mark the
point selected and store the residual.  The source has no `else`
branch: a gate failure leaves all slots unchanged. -/
def gatePhase (p_body p_world : V3) (s : PointSlots) : PointSlots :=
  if s.selected then
    let pd2 := planeDist s.coef p_world
    if valid_corr p_body pd2 then { s with selected := true, residual := pd2 }
    else s
  else s

/-- One iteration of the first parallel loop of `ObsModel` for point `i`:
transform the body point to the world frame with `R_wl`, `t_wl`, then run
the correspondence refresh and the validity gate.  Returns the world
point (written to `scan_down_world_[i]`) and the updated slots. -/
def obsModelPoint (knn : V3 → List V3) (estiPlane : List V3 → Option V4)
    (converge : Bool) (R_wl : M3) (t_wl : V3) (p_body : V3) (s : PointSlots) :
    V3 × PointSlots :=
  let p_world := R_wl.mulVec p_body + t_wl
  (p_world, gatePhase p_body p_world (corrPhase knn estiPlane converge p_world s))

/-- The inputs `ObsModel` reads from the filter state `s` and the driver:
the orientation and extrinsic rotation as rotation matrices, the two
translations, and the `extrinsic_est_en_` flag. -/
structure ObsInput where
  rot : M3
  pos : V3
  offR : M3
  offT : V3
  extrinsic_est_en : Bool
deriving DecidableEq

/-- One row of the measurement Jacobian as assembled by the second
parallel loop of `ObsModel`: with `n` the plane normal,
`C = Rᵀ n`, `A = skew(off_R p_be + off_t) C`, and (only when extrinsic
estimation is enabled) `B = skew(p_be) off_Rᵀ C`, the row is
`[n, A, B, C]`, respectively `[n, A, 0, 0]`. -/
def jacRow (extEn : Bool) (offR : M3) (Rt : M3) (offT : V3)
    (p_be : V3) (coef : V4) : List ℚ :=
  let point_this := offR.mulVec p_be + offT
  let n : V3 := ⟨coef.a, coef.b, coef.c⟩
  let C := Rt.mulVec n
  let A := (skew point_this).mulVec C
  if extEn then
    let B := (skew p_be).mulVec (offR.transpose.mulVec C)
    [n.x, n.y, n.z, A.x, A.y, A.z, B.x, B.y, B.z, C.x, C.y, C.z]
  else
    [n.x, n.y, n.z, A.x, A.y, A.z, 0, 0, 0, 0, 0, 0]

/-- The first parallel loop of `ObsModel` over all downsampled points,
pairing `scan_down_body_` with the per-point slots. -/
def obsPhase1 (knn : V3 → List V3) (estiPlane : List V3 → Option V4)
    (converge : Bool) (R_wl : M3) (t_wl : V3)
    (scan : List V3) (slots : List PointSlots) : List (V3 × PointSlots) :=
  (scan.zip slots).map fun pr => obsModelPoint knn estiPlane converge R_wl t_wl pr.1 pr.2

/-- The correspondence-collection loop of `ObsModel`: every point whose
selection flag is set contributes `(body point, plane_coef, residual)`
(the source packs the body point and the residual into `corr_pts_` and
the coefficients into `corr_norm_`), in index order;
`effect_feat_num_` is the length of this list. -/
def collectCorr (scan : List V3) (slots : List PointSlots) : List (V3 × V4 × ℚ) :=
  (scan.zip slots).filterMap fun pr =>
    if pr.2.selected then some (pr.1, pr.2.coef, pr.2.residual) else none

/-- The result of one `ObsModel` call: `scan_down_world_`, the updated
per-point slots, the updated shared data, and `effect_feat_num_`. -/
structure ObsOut where
  world : List V3
  slots : List PointSlots
  data : DynShare
  effect : ℕ
deriving DecidableEq

/-- `LaserMapping::ObsModel`: run the per-point loop with
`R_wl = rot * off_R` and `t_wl = rot * off_T + pos`, collect the selected
correspondences, and — when `effect_feat_num_ < 1` — mark the shared data
invalid and return without touching `h_x` or `h`; otherwise assemble the
Jacobian rows (with `Rt = rotᵀ`) and the measurement vector
`h i = -residual i`.  The source never writes `valid` on the success
path. -/
def ObsModel (knn : V3 → List V3) (estiPlane : List V3 → Option V4)
    (inp : ObsInput) (scan : List V3) (slots0 : List PointSlots)
    (data : DynShare) : ObsOut :=
  let R_wl := inp.rot.mul inp.offR
  let t_wl := inp.rot.mulVec inp.offT + inp.pos
  let pr := obsPhase1 knn estiPlane data.converge R_wl t_wl scan slots0
  let world := pr.map Prod.fst
  let slots := pr.map Prod.snd
  let corr := collectCorr scan slots
  if corr.length < 1 then
    ⟨world, slots, { data with valid := false }, corr.length⟩
  else
    ⟨world, slots,
     { data with
        h_x := corr.map fun c => jacRow inp.extrinsic_est_en inp.offR inp.rot.transpose inp.offT c.1 c.2.1,
        h := corr.map fun c => -c.2.2 },
     corr.length⟩

/-- Modelled from the spec: the reaction of the IKFoM filter layer
(`esekfom::esekf::update_iterated_dyn_share_modified`, a header outside
the provided source) to the shared data produced by the observation
model — "If M = 0 at any iteration, mark the update invalid and return
ŝ, P̂ unchanged": when `valid` is false the predicted pair is kept,
otherwise the update `upd` is applied. -/
def filterGuard {α : Type} (pred : α) (data : DynShare) (upd : α → DynShare → α) : α :=
  if data.valid then upd pred data else pred

/-! ## Map increment (`LaserMapping::MapIncremental`) -/

/-- Modelled from the spec: `common::calc_dist` (defined in
`common_lib.h`, which is not part of the provided source), the distance
measure used by the map-increment rule; modelled as the squared
Euclidean distance, matching the `Eigen` idiom the spec's §4.1 tolerance
`1e-6` is applied to. -/
def calc_dist (p q : V3) : ℚ :=
  normSq (p - q)

/-- The voxel centre computed in `MapIncremental`:
`((p / filter_size).floor + 0.5) * filter_size`, componentwise. -/
def voxelCenter (σ_map : ℚ) (p : V3) : V3 :=
  ⟨((⌊p.x / σ_map⌋ : ℤ) + 1/2) * σ_map,
   ((⌊p.y / σ_map⌋ : ℤ) + 1/2) * σ_map,
   ((⌊p.z / σ_map⌋ : ℤ) + 1/2) * σ_map⟩

/-- The "no need to downsample" test of `MapIncremental`: with
`dis_2_center = points_near[0] - center`, all three of
`fabs(dis.x) > 0.5 σ`, `fabs(dis.y) > 0.5 σ`, `fabs(dis.z) > 0.5 σ`
must hold (logical AND). -/
def noDownsampleTest (σ_map : ℚ) (q0 c : V3) : Bool :=
  decide (1/2 * σ_map < |q0.x - c.x|) &&
  decide (1/2 * σ_map < |q0.y - c.y|) &&
  decide (1/2 * σ_map < |q0.z - c.z|)

/-- The `need_add` computation of `MapIncremental`: with
`dist = calc_dist(point_world, center)`, when at least
`NUM_MATCH_POINTS` neighbours were recorded, the candidate is dropped
(`need_add = false`) as soon as any one of the first `NUM_MATCH_POINTS`
neighbours satisfies `calc_dist(neighbour, center) < dist + 1e-6`;
with fewer recorded neighbours `need_add` stays `true`. -/
def mapIncrNeedAdd (near : List V3) (p_world c : V3) : Bool :=
  let dist := calc_dist p_world c
  if NUM_MATCH_POINTS ≤ near.length then
    !((near.take NUM_MATCH_POINTS).any fun q => decide (calc_dist q c < dist + 1/1000000))
  else true

/-- Where a downsampled point ends up in `MapIncremental`: appended via
`point_no_need_downsample`, appended via `points_to_add`, or dropped. -/
inductive MapLane
  | noDownsample
  | toAdd
  | dropped
deriving DecidableEq

/-- The per-point decision of `MapIncremental`: with nonempty recorded
neighbours and the EKF initialised, test the no-downsample lane first
and otherwise the `need_add` rule; in every other case the point is
appended via `points_to_add` unconditionally. -/
def mapIncrementalPoint (σ_map : ℚ) (ekf_inited : Bool) (near : List V3)
    (p_world : V3) : MapLane :=
  match near, ekf_inited with
  | q0 :: rest, true =>
      let c := voxelCenter σ_map p_world
      if noDownsampleTest σ_map q0 c then .noDownsample
      else if mapIncrNeedAdd (q0 :: rest) p_world c then .toAdd
      else .dropped
  | _, _ => .toAdd

/-- Modelled from the spec: the §4.1 downsample rule as claim C5 words
it — the candidate is dropped iff at least `K_match` stored neighbour
points have distance to the voxel centre at most the candidate's
distance plus `1e-6` (distances as in `calc_dist`). -/
def specDropRule (near : List V3) (p_world c : V3) : Prop :=
  NUM_MATCH_POINTS ≤
    (near.filter fun q => decide (calc_dist q c ≤ calc_dist p_world c + 1/1000000)).length

instance (near : List V3) (p_world c : V3) : Decidable (specDropRule near p_world c) := by
  unfold specDropRule
  infer_instance

/-! ## Odometry publication (`LaserMapping::PublishOdometry`) -/

/-- The index swap of the covariance re-ordering loop of
`PublishOdometry`: `k = i < 3 ? i + 3 : i - 3`. -/
def swap6 (i : Fin 6) : Fin 6 :=
  if h : i.val < 3 then ⟨i.val + 3, by omega⟩
  else ⟨i.val - 3, by have := i.isLt; omega⟩

/-- Inclusion of the first six state indices into the 23-dimensional
covariance index range. -/
def liftIdx (i : Fin 6) : Fin 23 :=
  ⟨i.val, by have := i.isLt; omega⟩

/-- The 6×6 block the covariance loop of `PublishOdometry` writes:
`cov[i*6 + j] = P(k_i, k_j)` with `k_i = i<3 ? i+3 : i-3` (row source)
and the column pattern `3,4,5,0,1,2` (i.e. the same swap on columns) —
the top-left 6×6 of `P` with its first and second 3-blocks swapped on
both rows and columns. -/
def covFromP (P : Fin 23 → Fin 23 → ℚ) (i j : Fin 6) : ℚ :=
  P (liftIdx (swap6 i)) (liftIdx (swap6 j))

/-- The persistent odometry message `odom_aft_mapped_` (a member of
`LaserMapping` that survives between calls): the pose fields and the
6×6 pose covariance. -/
structure OdomMsg where
  pose_pos : V3
  pose_rot : V4
  cov : Fin 6 → Fin 6 → ℚ

/-- The filter state slice read by `SetPosestamp`. -/
structure StatePoint where
  pos : V3
  rot : V4
deriving DecidableEq

/-- `LaserMapping::SetPosestamp`: write the current position and
orientation into the message's pose. -/
def setPosestamp (sp : StatePoint) (m : OdomMsg) : OdomMsg :=
  { m with pose_pos := sp.pos, pose_rot := sp.rot }

/-- The Running-state (`lidar_odom_ = true`) branch of
`LaserMapping::PublishOdometry`, in source order: set the pose on the
persistent message, publish it, and only then fetch `P = kf_.get_P()`
and write the swapped covariance block into the persistent message.
Returns (the message as emitted, the persistent message after the
call). -/
def publishOdometryRunning (sp : StatePoint) (P : Fin 23 → Fin 23 → ℚ)
    (m : OdomMsg) : OdomMsg × OdomMsg :=
  let m1 := setPosestamp sp m
  let emitted := m1
  let m2 := { m1 with cov := covFromP P }
  (emitted, m2)

/-! ## Concrete example data used by counterexamples and witnesses -/

/-- A kNN oracle returning three neighbours (enough to pass the
`MIN_NUM_MATCH_POINTS` test) for every query. -/
def exKnn3 : V3 → List V3 := fun _ => [⟨0, 0, 0⟩, ⟨1, 0, 0⟩, ⟨0, 1, 0⟩]

/-- A kNN oracle returning no neighbours for every query. -/
def exKnn0 : V3 → List V3 := fun _ => []

/-- A plane-fit oracle that always succeeds with the plane `z + 1 = 0`. -/
def exPlane : List V3 → Option V4 := fun _ => some ⟨0, 0, 1, 1⟩

/-- An observation-model input with identity orientation and zero
translations, extrinsic estimation disabled. -/
def exInput : ObsInput := ⟨M3.id, ⟨0, 0, 0⟩, M3.id, ⟨0, 0, 0⟩, false⟩

/-- Freshly initialised per-point slots (as after the `resize` calls in
`Run`: empty neighbours, selected, zero coefficients, zero residual —
here taken deselected so that selection is decided by the refresh). -/
def exSlots0 : PointSlots := ⟨[], false, ⟨0, 0, 0, 0⟩, 0⟩

/-- Shared data at the start of an iteration with a correspondence
refresh requested. -/
def exData : DynShare := ⟨true, true, [], []⟩

/-- Five recorded neighbours of which exactly the first is close to the
voxel centre `(1/2, 1/2, 1/2)`. -/
def exNear : List V3 := [⟨1/2, 1/2, 1/2⟩, ⟨5, 5, 5⟩, ⟨5, 5, 5⟩, ⟨5, 5, 5⟩, ⟨5, 5, 5⟩]

/-- A candidate world point inside the unit voxel `[0,1)³`. -/
def exPw : V3 := ⟨1/10, 1/10, 1/10⟩

/-- A 23×23 identity covariance. -/
def exP : Fin 23 → Fin 23 → ℚ := fun i j => if i = j then 1 else 0

/-- A persistent odometry message whose covariance block is all zeros
(the state before any covariance was ever written). -/
def exMsg0 : OdomMsg := ⟨⟨0, 0, 0⟩, ⟨0, 0, 0, 1⟩, fun _ _ => 0⟩

/-- A filter pose. -/
def exSp : StatePoint := ⟨⟨1, 2, 3⟩, ⟨0, 0, 0, 1⟩⟩

/-- An intake state holding one scan stamped 10. -/
def exIntake : IntakeState := ⟨[[⟨0, 0, 0⟩]], [10], 10⟩

/-! ## Helper lemmas -/

/-- The executable gate agrees with the literal source gate: since
`81·pd2²` is nonnegative, `norm > 81·pd2²` holds iff
`normSq > (81·pd2²)²`. -/
theorem valid_corr_iff_gate (p_body : V3) (pd2 : ℚ) :
    valid_corr p_body pd2 = true ↔ validCorrGate p_body pd2 := by
  unfold valid_corr validCorrGate
  have hq : (0 : ℚ) ≤ 81 * pd2 * pd2 := by nlinarith [mul_self_nonneg pd2]
  have hr : (0 : ℝ) ≤ ((81 * pd2 * pd2 : ℚ) : ℝ) := by exact_mod_cast hq
  rw [Real.lt_sqrt hr]
  simp only [decide_eq_true_eq]
  constructor
  · intro h
    exact_mod_cast h
  · intro h
    exact_mod_cast h

/-- When the previous timestamp has reached the scan-end time the drain
loop exits immediately. -/
theorem drainLoop_exit (te prev : ℚ) (l : List ℚ) (h : ¬ prev < te) :
    drainLoop te prev l = ([], l) := by
  cases l with
  | nil => rfl
  | cons x xs => simp [drainLoop, h]

/-- Characterisation of the drain loop (for any buffer, sorted or not):
starting from a previous timestamp below `te`, it drains the longest
prefix of samples `< te`, plus one extra sample when the first
remaining sample equals `te` exactly. -/
theorem drainLoop_split (te : ℚ) (l : List ℚ) : ∀ prev, prev < te →
    ((l.dropWhile fun x => decide (x < te)).head? = some te ∧
      drainLoop te prev l =
        ((l.takeWhile fun x => decide (x < te)) ++ [te],
         (l.dropWhile fun x => decide (x < te)).tail)) ∨
    ((l.dropWhile fun x => decide (x < te)).head? ≠ some te ∧
      drainLoop te prev l =
        (l.takeWhile fun x => decide (x < te),
         l.dropWhile fun x => decide (x < te))) := by
  induction l with
  | nil =>
      intro prev hp
      right
      exact ⟨by simp, by simp [drainLoop]⟩
  | cons x xs ih =>
      intro prev hp
      by_cases hx : x < te
      · have hd : decide (x < te) = true := by simp [hx]
        have hntx : ¬ te < x := not_lt.mpr hx.le
        have hstep : drainLoop te prev (x :: xs) =
            (x :: (drainLoop te x xs).1, (drainLoop te x xs).2) := by
          simp [drainLoop, hp, hntx]
        rcases ih x hx with ⟨h1, h2⟩ | ⟨h1, h2⟩
        · left
          constructor
          · simpa [List.dropWhile_cons, hd] using h1
          · rw [hstep, h2]
            simp [List.takeWhile_cons, List.dropWhile_cons, hd]
        · right
          constructor
          · simpa [List.dropWhile_cons, hd] using h1
          · rw [hstep, h2]
            simp [List.takeWhile_cons, List.dropWhile_cons, hd]
      · have hd : decide (x < te) = false := by simp [hx]
        by_cases hxe : x = te
        · left
          subst hxe
          have hexit : drainLoop x x xs = ([], xs) :=
            drainLoop_exit x x xs (lt_irrefl x)
          constructor
          · simp [List.dropWhile_cons, hd]
          · have hstep : drainLoop x prev (x :: xs) = ([x], xs) := by
              simp [drainLoop, hp, lt_irrefl, hexit]
            rw [hstep]
            simp [List.takeWhile_cons, List.dropWhile_cons, hd]
        · right
          have htx : te < x := lt_of_le_of_ne (not_lt.mp hx) fun he => hxe he.symm
          constructor
          · simp [List.dropWhile_cons, hd, hxe]
          · have : drainLoop te prev (x :: xs) = ([], x :: xs) := by
              simp [drainLoop, hp, htx]
            rw [this]
            simp [List.takeWhile_cons, List.dropWhile_cons, hd]

/-- The axis test of the no-downsample lane as a proposition. -/
theorem noDownsampleTest_iff (σ_map : ℚ) (q0 c : V3) :
    noDownsampleTest σ_map q0 c = true ↔
      (1/2 * σ_map < |q0.x - c.x| ∧ 1/2 * σ_map < |q0.y - c.y| ∧
       1/2 * σ_map < |q0.z - c.z|) := by
  unfold noDownsampleTest
  simp [Bool.and_eq_true, decide_eq_true_eq, and_assoc]

/-! ## Claim C1 — validity gate formula -/

/-- C1 (counterexample): the claim that the gate accepts exactly when
the squared norm of the body point exceeds `81·r²` is false: for
`p_b = (1/2, 0, 0)` and residual `r = 1/18` the source gate accepts
(the gate phase writes the residual into the slot) although
`‖p_b‖² = 1/4` does not exceed `81·r² = 1/4`. -/
theorem C1_counterexample :
    validCorrGate ⟨1/2, 0, 0⟩ (planeDist ⟨0, 0, 1, 1/18⟩ ⟨1/2, 0, 0⟩) ∧
    (gatePhase ⟨1/2, 0, 0⟩ ⟨1/2, 0, 0⟩ ⟨[], true, ⟨0, 0, 1, 1/18⟩, 0⟩).residual = 1/18 ∧
    ¬ gateSpec ⟨1/2, 0, 0⟩ (planeDist ⟨0, 0, 1, 1/18⟩ ⟨1/2, 0, 0⟩) :=
  ⟨(valid_corr_iff_gate _ _).mp (by with_unfolding_all decide),
   by with_unfolding_all decide, by with_unfolding_all decide⟩

/-- C1 (amended): the validity gate accepts a correspondence exactly
when the Euclidean norm (not its square) of the body-frame point
strictly exceeds 81 times the squared signed point-to-plane residual:
`‖p_b‖ > 81 · r_i²`. -/
theorem C1_amended (p_body : V3) (pd2 : ℚ) :
    valid_corr p_body pd2 = true ↔ validCorrGate p_body pd2 :=
  valid_corr_iff_gate p_body pd2

/-! ## Claim C2 — effect of a gate failure -/

/-- C2 (counterexample): a downsampled point that passed neighbour
lookup and plane fitting but fails the validity gate is not rejected:
in a full `ObsModel` run with one such point the effective
correspondence count is 1, the Jacobian has one row and the measurement
vector one entry (built from the stale residual 0). -/
theorem C2_counterexample :
    valid_corr ⟨1, 0, 0⟩ (planeDist ⟨0, 0, 1, 1⟩ ⟨1, 0, 0⟩) = false ∧
    (ObsModel exKnn3 exPlane exInput [⟨1, 0, 0⟩] [exSlots0] exData).effect = 1 ∧
    (ObsModel exKnn3 exPlane exInput [⟨1, 0, 0⟩] [exSlots0] exData).data.h_x.length = 1 ∧
    (ObsModel exKnn3 exPlane exInput [⟨1, 0, 0⟩] [exSlots0] exData).data.h = [0] ∧
    (ObsModel exKnn3 exPlane exInput [⟨1, 0, 0⟩] [exSlots0] exData).slots.map
      PointSlots.selected = [true] := by
  with_unfolding_all decide

/-- C2 (amended): a selected point whose correspondence fails the
validity gate keeps all its slots unchanged — in particular it remains
selected (and therefore is still counted in M and still contributes a
Jacobian row and a measurement entry); only the residual refresh is
skipped. -/
theorem C2_amended (p_body p_world : V3) (s : PointSlots)
    (h1 : s.selected = true)
    (h2 : valid_corr p_body (planeDist s.coef p_world) = false) :
    gatePhase p_body p_world s = s ∧ (gatePhase p_body p_world s).selected = true := by
  have hg : gatePhase p_body p_world s = s := by
    simp [gatePhase, h1, h2]
  exact ⟨hg, by rw [hg]; exact h1⟩

/-- C2 (witness): concrete instance of `C2_amended` at a selected slot
with plane `z + 1 = 0` and body point `(1, 0, 0)`. -/
theorem C2_witness :
    (⟨[], true, ⟨0, 0, 1, 1⟩, 0⟩ : PointSlots).selected = true ∧
    valid_corr ⟨1, 0, 0⟩ (planeDist (⟨0, 0, 1, 1⟩ : V4) ⟨1, 0, 0⟩) = false ∧
    (gatePhase ⟨1, 0, 0⟩ ⟨1, 0, 0⟩ ⟨[], true, ⟨0, 0, 1, 1⟩, 0⟩ =
        ⟨[], true, ⟨0, 0, 1, 1⟩, 0⟩ ∧
      (gatePhase ⟨1, 0, 0⟩ ⟨1, 0, 0⟩ ⟨[], true, ⟨0, 0, 1, 1⟩, 0⟩).selected = true) :=
  ⟨rfl, by with_unfolding_all decide,
   C2_amended ⟨1, 0, 0⟩ ⟨1, 0, 0⟩ ⟨[], true, ⟨0, 0, 1, 1⟩, 0⟩ rfl
     (by with_unfolding_all decide)⟩

/-! ## Claim C3 — published covariance -/

/-- C3 (code bug demonstration): the Running branch of
`PublishOdometry` publishes the persistent message before writing the
swapped covariance of the current `P` into it.  At a state whose
persistent message still holds an all-zero covariance and with
`P = identity`, the emitted message carries the all-zero covariance,
not the swapped block of the current `P` (whose `(0,0)` entry is 1);
the swapped block is only stored for the next call. -/
theorem C3_bug :
    (∀ i j : Fin 6, ((publishOdometryRunning exSp exP exMsg0).1).cov i j = 0) ∧
    covFromP exP 0 0 = 1 ∧
    ((publishOdometryRunning exSp exP exMsg0).1).cov 0 0 ≠ covFromP exP 0 0 ∧
    (∀ i j : Fin 6, ((publishOdometryRunning exSp exP exMsg0).2).cov i j = covFromP exP i j) := by
  refine ⟨fun i j => rfl, by with_unfolding_all decide, by with_unfolding_all decide,
    fun i j => rfl⟩

/-! ## Claim C4 — IMU drain boundary -/

/-- C4 (counterexample): a buffered IMU sample with timestamp exactly
equal to the scan-end time `t_e = 2` is drained into the bundle
(and does not remain at the front of the buffer), although its
timestamp is not strictly less than `t_e`. -/
theorem C4_counterexample :
    drainImu 2 [1, 2] = ([1, 2], []) ∧
    (([1, 2] : List ℚ).filter fun x => decide (x < 2)) = [1] := by
  with_unfolding_all decide

/-- C4 (amended): for a nonempty IMU buffer the drained bundle is the
prefix of samples with timestamp strictly below `t_e`, extended by one
extra sample exactly when that prefix is nonempty and the next sample's
timestamp equals `t_e`; bundle and remaining buffer concatenate back to
the original buffer (order preserved). -/
theorem C4_amended (te : ℚ) (l : List ℚ) (hne : l ≠ []) :
    ∃ ext : List ℚ,
      (drainImu te l).1 = (l.takeWhile fun x => decide (x < te)) ++ ext ∧
      (drainImu te l).1 ++ (drainImu te l).2 = l ∧
      (ext = [] ∨ ext = [te]) ∧
      (ext = [te] ↔ ((l.takeWhile fun x => decide (x < te)) ≠ [] ∧
        (l.dropWhile fun x => decide (x < te)).head? = some te)) := by
  cases l with
  | nil => exact absurd rfl hne
  | cons x xs =>
      by_cases hx : x < te
      · rcases drainLoop_split te (x :: xs) x hx with ⟨h1, h2⟩ | ⟨h1, h2⟩
        · refine ⟨[te], ?_, ?_, Or.inr rfl, ?_⟩
          · simp [drainImu, h2]
          · obtain ⟨t, ht⟩ : ∃ t, ((x :: xs).dropWhile fun y => decide (y < te)) = te :: t := by
              cases hD : ((x :: xs).dropWhile fun y => decide (y < te)) with
              | nil => rw [hD] at h1; simp at h1
              | cons a t =>
                  rw [hD] at h1
                  simp only [List.head?_cons, Option.some.injEq] at h1
                  exact ⟨t, by rw [h1]⟩
            have happ := List.takeWhile_append_dropWhile
              (fun y => decide (y < te)) (x :: xs)
            rw [ht] at happ
            simpa [drainImu, h2, ht] using happ
          · constructor
            · intro _
              refine ⟨?_, h1⟩
              simp [List.takeWhile_cons, hx]
            · intro _
              rfl
        · refine ⟨[], ?_, ?_, Or.inl rfl, ?_⟩
          · simp [drainImu, h2]
          · simp [drainImu, h2, List.takeWhile_append_dropWhile]
          · simp [h1]
      · have h2 : drainLoop te x (x :: xs) = ([], x :: xs) :=
          drainLoop_exit te x (x :: xs) hx
        refine ⟨[], ?_, ?_, Or.inl rfl, ?_⟩
        · simp [drainImu, h2, List.takeWhile_cons, hx]
        · simp [drainImu, h2]
        · simp [List.takeWhile_cons, hx]

/-- C4 (witness): concrete instance of `C4_amended` at `t_e = 2` with
buffer `[1, 2, 3]`: the bundle is `[1, 2]` and `[3]` remains. -/
theorem C4_witness :
    (([1, 2, 3] : List ℚ) ≠ []) ∧
    (∃ ext : List ℚ,
      (drainImu 2 [1, 2, 3]).1 =
        (([1, 2, 3] : List ℚ).takeWhile fun x => decide (x < 2)) ++ ext ∧
      (drainImu 2 [1, 2, 3]).1 ++ (drainImu 2 [1, 2, 3]).2 = [1, 2, 3] ∧
      (ext = [] ∨ ext = [2]) ∧
      (ext = [2] ↔ ((([1, 2, 3] : List ℚ).takeWhile fun x => decide (x < 2)) ≠ [] ∧
        (([1, 2, 3] : List ℚ).dropWhile fun x => decide (x < 2)).head? = some 2))) :=
  ⟨by decide, C4_amended 2 [1, 2, 3] (by decide)⟩

/-! ## Claim C5 — map-increment downsample rule -/

/-- C5 (counterexample): with five recorded neighbours of which exactly
one (not five) is within the candidate's distance to the voxel centre
plus `1e-6`, the source drops the candidate, while the claimed rule
("at least K_match close points") would append it. -/
theorem C5_counterexample :
    mapIncrementalPoint 1 true exNear exPw = .dropped ∧
    ¬ specDropRule exNear exPw (voxelCenter 1 exPw) := by
  with_unfolding_all decide

/-- C5 (amended): in the downsample lane (nonempty neighbours, EKF
initialised, axis test failed) the candidate is dropped iff at least
`NUM_MATCH_POINTS` neighbours were recorded and at least one of the
first `NUM_MATCH_POINTS` of them has squared distance to the voxel
centre strictly below the candidate's squared distance plus `1e-6`;
otherwise it is appended. -/
theorem C5_amended (σ_map : ℚ) (q0 : V3) (rest : List V3) (p_world : V3)
    (hno : noDownsampleTest σ_map q0 (voxelCenter σ_map p_world) = false) :
    mapIncrementalPoint σ_map true (q0 :: rest) p_world = .dropped ↔
      (NUM_MATCH_POINTS ≤ (q0 :: rest).length ∧
        ((q0 :: rest).take NUM_MATCH_POINTS).any
          (fun q => decide (calc_dist q (voxelCenter σ_map p_world) <
            calc_dist p_world (voxelCenter σ_map p_world) + 1/1000000)) = true) := by
  simp only [mapIncrementalPoint, hno, Bool.false_eq_true, if_false]
  unfold mapIncrNeedAdd
  by_cases hlen : NUM_MATCH_POINTS ≤ (q0 :: rest).length
  · simp only [hlen, if_true, true_and]
    cases hany : ((q0 :: rest).take NUM_MATCH_POINTS).any
        (fun q => decide (calc_dist q (voxelCenter σ_map p_world) <
          calc_dist p_world (voxelCenter σ_map p_world) + 1/1000000)) with
    | true => simp [hany]
    | false => simp [hany]
  · simp [hlen]

/-- C5 (witness): concrete instance of `C5_amended` at `σ_map = 1` with
the neighbours of `C5_counterexample`: the first neighbour is close, so
the candidate is dropped. -/
theorem C5_witness :
    noDownsampleTest 1 ⟨1/2, 1/2, 1/2⟩ (voxelCenter 1 exPw) = false ∧
    (mapIncrementalPoint 1 true
        (⟨1/2, 1/2, 1/2⟩ :: [⟨5, 5, 5⟩, ⟨5, 5, 5⟩, ⟨5, 5, 5⟩, ⟨5, 5, 5⟩]) exPw = .dropped ↔
      (NUM_MATCH_POINTS ≤ (⟨1/2, 1/2, 1/2⟩ ::
          [⟨5, 5, 5⟩, ⟨5, 5, 5⟩, ⟨5, 5, 5⟩, (⟨5, 5, 5⟩ : V3)]).length ∧
        ((⟨1/2, 1/2, 1/2⟩ ::
            [⟨5, 5, 5⟩, ⟨5, 5, 5⟩, ⟨5, 5, 5⟩, (⟨5, 5, 5⟩ : V3)]).take NUM_MATCH_POINTS).any
          (fun q => decide (calc_dist q (voxelCenter 1 exPw) <
            calc_dist exPw (voxelCenter 1 exPw) + 1/1000000)) = true)) :=
  ⟨by with_unfolding_all decide,
   C5_amended 1 ⟨1/2, 1/2, 1/2⟩ [⟨5, 5, 5⟩, ⟨5, 5, 5⟩, ⟨5, 5, 5⟩, ⟨5, 5, 5⟩] exPw
     (by with_unfolding_all decide)⟩

/-! ## Claim C6 — stop service -/

/-- C6 (counterexample): after `stopLIO` on a Running driver with one
accumulated pose, the state is Idle but the trajectory is not empty —
the claim that `stop_lidar_odom` clears the trajectory is false. -/
theorem C6_counterexample :
    (stopLio ⟨true, [(⟨0, 0, 0⟩, ⟨0, 0, 0, 1⟩)]⟩).lidar_odom = false ∧
    (stopLio ⟨true, [(⟨0, 0, 0⟩, ⟨0, 0, 0, 1⟩)]⟩).path_poses ≠ [] := by
  with_unfolding_all decide

/-- C6 (amended): `stop_lidar_odom` transitions the driver to Idle
(`lidar_odom_ = false`) and leaves the accumulated trajectory
untouched; the trajectory is cleared by `start_lidar_odom` instead. -/
theorem C6_amended (st : DriverState) :
    (stopLio st).lidar_odom = false ∧ (stopLio st).path_poses = st.path_poses ∧
    (startLio st).path_poses = [] ∧ (startLio st).lidar_odom = true :=
  ⟨rfl, rfl, rfl, rfl⟩

/-! ## Claim C7 — unknown ivox_nearby_type -/

/-- C7 (counterexample): with the unrecognised value
`ivox_nearby_type = 7` (and a valid `lidar_type = 1`), parameter
loading does not fail: it succeeds with the `NEARBY18` fallback. -/
theorem C7_counterexample :
    ¬ ((7 : ℤ) = 0 ∨ (7 : ℤ) = 6 ∨ (7 : ℤ) = 18 ∨ (7 : ℤ) = 26) ∧
    loadParams 1 7 = some (LidarType.AVIA, NearbyType.NEARBY18) := by
  decide

/-- C7 (amended): for any recognised `lidar_type` and any
`ivox_nearby_type` outside `{0, 6, 18, 26}`, parameter loading
succeeds, selecting the `NEARBY18` fallback; loading fails only on an
unrecognised `lidar_type` (or a failed YAML conversion). -/
theorem C7_amended (lt nt : ℤ) (hlt : lt = 1 ∨ lt = 2 ∨ lt = 3)
    (hnt : ¬ (nt = 0 ∨ nt = 6 ∨ nt = 18 ∨ nt = 26)) :
    loadParams lt nt ≠ none ∧
    ∃ l, loadParams lt nt = some (l, NearbyType.NEARBY18) := by
  push_neg at hnt
  obtain ⟨h0, h6, h18, h26⟩ := hnt
  have hnb : loadNearbyType nt = NearbyType.NEARBY18 := by
    unfold loadNearbyType
    simp [h0, h6, h18, h26]
  rcases hlt with h | h | h <;> subst h
  · exact ⟨by simp [loadParams, loadLidarType, hnb],
      LidarType.AVIA, by simp [loadParams, loadLidarType, hnb]⟩
  · exact ⟨by simp [loadParams, loadLidarType, hnb],
      LidarType.VELO32, by simp [loadParams, loadLidarType, hnb]⟩
  · exact ⟨by simp [loadParams, loadLidarType, hnb],
      LidarType.OUST64, by simp [loadParams, loadLidarType, hnb]⟩

/-- C7 (witness): concrete instance of `C7_amended` at
`lidar_type = 1`, `ivox_nearby_type = 7`. -/
theorem C7_witness :
    ((1 : ℤ) = 1 ∨ (1 : ℤ) = 2 ∨ (1 : ℤ) = 3) ∧
    ¬ ((7 : ℤ) = 0 ∨ (7 : ℤ) = 6 ∨ (7 : ℤ) = 18 ∨ (7 : ℤ) = 26) ∧
    (loadParams 1 7 ≠ none ∧ ∃ l, loadParams 1 7 = some (l, NearbyType.NEARBY18)) :=
  ⟨by decide, by decide, C7_amended 1 7 (by decide) (by decide)⟩

/-! ## Claim C8 — no-need-to-downsample lane -/

/-- C8: in `MapIncremental`, a downsampled point with nonempty recorded
neighbours and the EKF initialised is appended via the
no-need-to-downsample lane exactly when the absolute per-axis distance
from its first nearest neighbour to the voxel centre exceeds
`0.5 · σ_map` on all three axes simultaneously (logical AND). -/
theorem C8_noDownsample_iff (σ_map : ℚ) (q0 : V3) (rest : List V3) (p_world : V3) :
    mapIncrementalPoint σ_map true (q0 :: rest) p_world = .noDownsample ↔
      (1/2 * σ_map < |q0.x - (voxelCenter σ_map p_world).x| ∧
       1/2 * σ_map < |q0.y - (voxelCenter σ_map p_world).y| ∧
       1/2 * σ_map < |q0.z - (voxelCenter σ_map p_world).z|) := by
  rw [← noDownsampleTest_iff]
  simp only [mapIncrementalPoint]
  cases h : noDownsampleTest σ_map q0 (voxelCenter σ_map p_world) with
  | true => simp [h]
  | false =>
      simp only [h, Bool.false_eq_true, if_false]
      constructor
      · intro hc
        exfalso
        by_cases hadd : mapIncrNeedAdd (q0 :: rest) p_world (voxelCenter σ_map p_world) = true
        · rw [if_pos hadd] at hc
          exact MapLane.noConfusion hc
        · rw [if_neg hadd] at hc
          exact MapLane.noConfusion hc
      · intro hc
        exact absurd hc (by simp)

/-! ## Claim C9 — zero effective correspondences -/

/-- C9: if the effective correspondence count is zero, `ObsModel` marks
the shared data invalid and returns with `h_x` and `h` untouched, and
the (spec-modelled) filter layer then keeps the predicted state and
covariance unchanged. -/
theorem C9_invalid (knn : V3 → List V3) (estiPlane : List V3 → Option V4)
    (inp : ObsInput) (scan : List V3) (slots0 : List PointSlots) (data : DynShare)
    (h : (ObsModel knn estiPlane inp scan slots0 data).effect = 0) :
    (ObsModel knn estiPlane inp scan slots0 data).data.valid = false ∧
    (ObsModel knn estiPlane inp scan slots0 data).data.h_x = data.h_x ∧
    (ObsModel knn estiPlane inp scan slots0 data).data.h = data.h ∧
    ∀ (α : Type) (pred : α) (upd : α → DynShare → α),
      filterGuard pred (ObsModel knn estiPlane inp scan slots0 data).data upd = pred := by
  simp only [ObsModel] at h ⊢
  split_ifs at h ⊢ with hc
  · exact ⟨rfl, rfl, rfl, fun α pred upd => rfl⟩
  · dsimp only at h
    exact absurd h (by omega)

/-- C9 (witness): concrete instance of `C9_invalid` with one point and
a kNN oracle returning no neighbours, so that no point is selected. -/
theorem C9_witness :
    (ObsModel exKnn0 exPlane exInput [⟨1, 0, 0⟩] [exSlots0] exData).effect = 0 ∧
    (ObsModel exKnn0 exPlane exInput [⟨1, 0, 0⟩] [exSlots0] exData).data.valid = false ∧
    (ObsModel exKnn0 exPlane exInput [⟨1, 0, 0⟩] [exSlots0] exData).data.h_x = [] ∧
    filterGuard (37 : ℚ)
      (ObsModel exKnn0 exPlane exInput [⟨1, 0, 0⟩] [exSlots0] exData).data
      (fun p _ => p + 1) = 37 :=
  ⟨by with_unfolding_all decide,
   (C9_invalid exKnn0 exPlane exInput [⟨1, 0, 0⟩] [exSlots0] exData
     (by with_unfolding_all decide)).1,
   (C9_invalid exKnn0 exPlane exInput [⟨1, 0, 0⟩] [exSlots0] exData
     (by with_unfolding_all decide)).2.1,
   (C9_invalid exKnn0 exPlane exInput [⟨1, 0, 0⟩] [exSlots0] exData
     (by with_unfolding_all decide)).2.2.2 ℚ 37 (fun p _ => p + 1)⟩

/-! ## Claim C10 — intake buffer pairing -/

/-- C10 (code bug demonstration): on a LiDAR timestamp regression the
callback clears only the scan buffer, not the time buffer: starting
from paired buffers of length 1 and feeding a scan stamped 5 (below
`last_timestamp_lidar_ = 10`), the scan buffer ends with length 1 while
the time buffer ends with length 2, breaking the claimed equal-length
invariant — while a non-regressing callback, a `SyncPackages` pop and
`Reset` all preserve it. -/
theorem C10_regression_bug :
    (standardPCLCallBack 5 [] exIntake).lidar_buffer.length = 1 ∧
    (standardPCLCallBack 5 [] exIntake).time_buffer.length = 2 ∧
    (standardPCLCallBack 11 [] exIntake).lidar_buffer.length = 2 ∧
    (standardPCLCallBack 11 [] exIntake).time_buffer.length = 2 ∧
    (resetBuffers exIntake).lidar_buffer.length = (resetBuffers exIntake).time_buffer.length := by
  with_unfolding_all decide

end FasterLio
